import Mathlib

/-!
Verification development for the constexpr-everything static-analysis tool
(src/main.cpp). The tool runs two clang AST visitor passes over a translation
unit: `ConstexprFunctionASTVisitor` marks functions that could be `constexpr`
(mutating the AST and emitting a warning with a fix-it), then
`ConstexprVarDeclFunctionASTVisitor` walks functions that are still not
`constexpr` and suggests `constexpr` for eligible single-declaration local
variables.

The embedding is shallow: clang AST nodes become Lean structures whose fields
carry exactly the attributes the source consults; results of external clang
semantic queries (Sema calls, `checkInitIsICE`, `evaluateValue`, `isInitICE`)
are carried as oracle fields on the nodes; the diagnostics engine is explicit
state (a suppression flag plus the list of emitted diagnostics), threaded
through every operation in source order.
-/

/-- Source locations are abstract handles (clang `SourceLocation`). -/
abbrev SourceLocation := Nat

/-- Source ranges are abstract handles (clang `SourceRange`). -/
abbrev SourceRange := Nat

/-- The fields of a clang `QualType` the source consults. -/
structure QualType where
  isDependentType : Bool
  isLiteralType : Bool
  isVariablyModifiedType : Bool
deriving DecidableEq

/-- The fields of a clang `Expr` the source consults on an initializer. -/
structure Expr where
  isValueDependent : Bool
deriving DecidableEq

/-- The fields of a clang `VarDecl` the source consults. The last three fields
carry the verdicts of the external clang semantic queries `checkInitIsICE`,
`evaluateValue` and `isInitICE` as oracles, since those are clang library code,
not part of this repository. -/
structure VarDecl where
  location : SourceLocation
  isThisDeclarationADefinition : Bool
  isStaticLocal : Bool
  tlsDynamic : Bool
  type : QualType
  init : Option Expr
  isCXXForRangeDecl : Bool
  isConstexpr : Bool
  checkInitIsICE : Bool
  evaluateValue : Bool
  isInitICE : Bool
deriving DecidableEq

/-- Clang `VarDecl::hasInit`. -/
def VarDecl.hasInit (v : VarDecl) : Bool := v.init.isSome

/-- A declaration appearing inside a `DeclStmt`, tagged with the `Decl::Kind`
cases that `CheckConstexprDeclStmt` (src/main.cpp lines 23-127) switches on,
each carrying the payload that case consults. -/
inductive LocalDecl where
  | staticAssertDecl
  | usingDecl
  | usingShadowDecl
  | usingDirectiveDecl
  | unresolvedUsingTypenameDecl
  | unresolvedUsingValueDecl
  | typedefDecl (underlying : QualType) (tlBegin : SourceLocation) (tlRange : SourceRange)
  | typeAliasDecl (underlying : QualType) (tlBegin : SourceLocation) (tlRange : SourceRange)
  | enumDecl (isDefinition : Bool)
  | cxxRecordDecl (isDefinition : Bool)
  | enumConstantDecl
  | indirectFieldDecl
  | parmVarDeclKind
  | varDeclKind (v : VarDecl)
  | decompositionDecl (v : VarDecl)
  | namespaceAliasDecl
  | functionDeclKind
  | otherDecl
deriving DecidableEq

/-- Clang `dyn_cast<VarDecl>` on a declaration inside a `DeclStmt`: succeeds
exactly on the `VarDecl`-derived kinds that carry a variable payload. -/
def LocalDecl.dynCastVarDecl : LocalDecl → Option VarDecl
  | .varDeclKind v => some v
  | .decompositionDecl v => some v
  | _ => none

/-- A clang `DeclStmt`: its begin location and the declarations it introduces. -/
structure DeclStmt where
  beginLoc : SourceLocation
  decls : List LocalDecl
deriving DecidableEq

/-- Clang `DeclStmt::isSingleDecl`. -/
def DeclStmt.isSingleDecl (ds : DeclStmt) : Bool := ds.decls.length == 1

/-- Diagnostic severity levels (clang `DiagnosticsEngine::Level`). -/
inductive DiagLevel where
  | noteLevel
  | warningLevel
  | errorLevel
deriving DecidableEq

/-- The diagnostic identifiers the source emits: the named Sema diagnostics of
`CheckConstexprDeclStmt` / `CheckConstexprParameterTypes`, plus custom ids
created through `getCustomDiagID(level, message)`. -/
inductive DiagId where
  | err_constexpr_vla
  | warn_cxx11_compat_constexpr_type_definition
  | ext_constexpr_type_definition
  | err_constexpr_local_var_static
  | err_constexpr_local_var_non_literal_type
  | err_constexpr_local_var_no_init
  | warn_cxx11_compat_constexpr_local_var
  | ext_constexpr_local_var
  | err_constexpr_body_invalid_stmt
  | err_constexpr_non_literal_param
  | customDiag (lvl : DiagLevel) (msg : String)
deriving DecidableEq

/-- A fix-it hint: insertion of literal text at a location
(clang `FixItHint::CreateInsertion`). -/
structure FixItHint where
  loc : SourceLocation
  insertion : String
deriving DecidableEq

/-- An emitted diagnostic record: location, id, streamed numeric/boolean
arguments, optional streamed source range, optional fix-it. -/
structure Diagnostic where
  loc : SourceLocation
  id : DiagId
  args : List Nat
  range : Option SourceRange
  fixit : Option FixItHint
deriving DecidableEq

/-- The diagnostics engine: the `SuppressAllDiagnostics` flag and the list of
diagnostics recorded so far, in emission order. -/
structure DiagnosticsEngine where
  suppressAll : Bool
  emitted : List Diagnostic
deriving DecidableEq

/-- Clang `DiagnosticsEngine::Report`: a no-op while all diagnostics are
suppressed, otherwise appends the record. -/
def DiagnosticsEngine.report (de : DiagnosticsEngine) (d : Diagnostic) : DiagnosticsEngine :=
  if de.suppressAll then de else { de with emitted := de.emitted ++ [d] }

/-- Modelled from the spec: `Sema::RequireLiteralType` is a Semantic Query
Service operation (spec section 6, `requireLiteralType(location, type) ->
pass|fail`) implemented in the clang library, outside this repository. It
passes (returns `false`) exactly when the type is a literal type and on
failure emits the supplied diagnostic and returns `true`. -/
def Sema.RequireLiteralType (de : DiagnosticsEngine) (loc : SourceLocation) (ty : QualType)
    (id : DiagId) (args : List Nat) (range : Option SourceRange) :
    DiagnosticsEngine × Bool :=
  if ty.isLiteralType then (de, false)
  else (de.report { loc := loc, id := id, args := args, range := range, fixit := none }, true)

/-- The advisory diagnostic emitted for every local variable or decomposition
declaration in `CheckConstexprDeclStmt` (src/main.cpp lines 103-107). -/
def localVarAdvisoryDiag (cxx14 isCtor : Bool) (v : VarDecl) : Diagnostic :=
  { loc := v.location,
    id := if cxx14 then DiagId.warn_cxx11_compat_constexpr_local_var
          else DiagId.ext_constexpr_local_var,
    args := [isCtor.toNat], range := none, fixit := none }

/-- One iteration of the `switch` in `CheckConstexprDeclStmt` (src/main.cpp
lines 29-123), for a single declaration of the statement. Returns whether the
loop continues (`true`) or the function returns `false`, together with the
updated diagnostics engine and `Cxx1yLoc`. -/
def constexprDeclStep (isCtor cxx14 : Bool) (dsBegin : SourceLocation) (d : LocalDecl)
    (de : DiagnosticsEngine) (cxx1yLoc : Option SourceLocation) :
    Bool × DiagnosticsEngine × Option SourceLocation :=
  match d with
  | .staticAssertDecl | .usingDecl | .usingShadowDecl | .usingDirectiveDecl
  | .unresolvedUsingTypenameDecl | .unresolvedUsingValueDecl =>
    (true, de, cxx1yLoc)
  | .typedefDecl u tlBegin tlRange | .typeAliasDecl u tlBegin tlRange =>
    if u.isVariablyModifiedType then
      (false,
       de.report { loc := tlBegin, id := DiagId.err_constexpr_vla,
                   args := [isCtor.toNat], range := some tlRange, fixit := none },
       cxx1yLoc)
    else (true, de, cxx1yLoc)
  | .enumDecl isDef | .cxxRecordDecl isDef =>
    if isDef then
      (true,
       de.report { loc := dsBegin,
                   id := if cxx14 then DiagId.warn_cxx11_compat_constexpr_type_definition
                         else DiagId.ext_constexpr_type_definition,
                   args := [isCtor.toNat], range := none, fixit := none },
       cxx1yLoc)
    else (true, de, cxx1yLoc)
  | .enumConstantDecl | .indirectFieldDecl | .parmVarDeclKind =>
    (true, de, cxx1yLoc)
  | .varDeclKind v | .decompositionDecl v =>
    if v.isThisDeclarationADefinition then
      if v.isStaticLocal then
        (false,
         de.report { loc := v.location, id := DiagId.err_constexpr_local_var_static,
                     args := [isCtor.toNat, v.tlsDynamic.toNat], range := none, fixit := none },
         cxx1yLoc)
      else
        match (if !v.type.isDependentType then
                 Sema.RequireLiteralType de v.location v.type
                   DiagId.err_constexpr_local_var_non_literal_type [isCtor.toNat] none
               else (de, false)) with
        | (de1, true) => (false, de1, cxx1yLoc)
        | (de1, false) =>
          if !v.type.isDependentType && !v.hasInit && !v.isCXXForRangeDecl then
            (false,
             de1.report { loc := v.location, id := DiagId.err_constexpr_local_var_no_init,
                          args := [isCtor.toNat], range := none, fixit := none },
             cxx1yLoc)
          else
            (true, de1.report (localVarAdvisoryDiag cxx14 isCtor v), cxx1yLoc)
    else
      (true, de.report (localVarAdvisoryDiag cxx14 isCtor v), cxx1yLoc)
  | .namespaceAliasDecl | .functionDeclKind =>
    (true, de, if cxx1yLoc.isNone then some dsBegin else cxx1yLoc)
  | .otherDecl =>
    (false,
     de.report { loc := dsBegin, id := DiagId.err_constexpr_body_invalid_stmt,
                 args := [isCtor.toNat], range := none, fixit := none },
     cxx1yLoc)

/-- The `for` loop of `CheckConstexprDeclStmt` over `DS->decls()`: continue or
return `false` per declaration; reaching the end returns `true`. -/
def CheckConstexprDeclStmtAux (isCtor cxx14 : Bool) (dsBegin : SourceLocation) :
    List LocalDecl → DiagnosticsEngine → Option SourceLocation →
    DiagnosticsEngine × Option SourceLocation × Bool
  | [], de, cxx1yLoc => (de, cxx1yLoc, true)
  | d :: rest, de, cxx1yLoc =>
    match constexprDeclStep isCtor cxx14 dsBegin d de cxx1yLoc with
    | (true, de1, loc1) => CheckConstexprDeclStmtAux isCtor cxx14 dsBegin rest de1 loc1
    | (false, de1, loc1) => (de1, loc1, false)

/-- `CheckConstexprDeclStmt` (src/main.cpp lines 23-127): the repository's
statement-body legality checker. State-passing embedding: the diagnostics
engine and the by-reference `Cxx1yLoc` are threaded explicitly, and the C++
`bool` result is the last component. -/
def CheckConstexprDeclStmt (de : DiagnosticsEngine) (isCtor cxx14 : Bool)
    (ds : DeclStmt) (cxx1yLoc : Option SourceLocation) :
    DiagnosticsEngine × Option SourceLocation × Bool :=
  CheckConstexprDeclStmtAux isCtor cxx14 ds.beginLoc ds.decls de cxx1yLoc

/-- The fields of a clang `ParmVarDecl` the source consults. -/
structure ParmVarDecl where
  location : SourceLocation
  sourceRange : SourceRange
  type : QualType
deriving DecidableEq

/-- A function declaration, with the fields the two visitors consult.
`semaDeclOk` carries the verdict of the external clang call
`Sema::CheckConstexprFunctionDecl` as an oracle, and `semaBodyOtherOk` carries
the verdict of the parts of `Sema::CheckConstexprFunctionBody` that go beyond
the per-declaration-statement legality policy (see
`Sema.CheckConstexprFunctionBody` below). -/
structure FunctionDecl where
  sourceBegin : SourceLocation
  isConstexpr : Bool
  isMain : Bool
  isCtor : Bool
  params : List ParmVarDecl
  body : List DeclStmt
  semaDeclOk : Bool
  semaBodyOtherOk : Bool
deriving DecidableEq

/-- The source manager is consulted only through `isWrittenInMainFile`, so it
is embedded as that predicate on locations. -/
abbrev SourceManager := SourceLocation → Bool

/-- Clang `SourceManager::isWrittenInMainFile`. -/
def SourceManager.isWrittenInMainFile (sm : SourceManager) (loc : SourceLocation) : Bool :=
  sm loc

/-- Modelled from the spec: `Sema::CheckConstexprFunctionDecl` is clang library
code outside this repository; spec section 4.1 step 3a delegates the
function-declaration-level constexpr rules wholesale to the Semantic Query
Service, so its verdict is carried as an oracle field of the function. -/
def Sema.CheckConstexprFunctionDecl (f : FunctionDecl) : Bool := f.semaDeclOk

/-- The pure legality verdict of the statement-body policy of spec section 4.3
for one local declaration. -/
def LocalDecl.legalInConstexprBody : LocalDecl → Bool
  | .staticAssertDecl | .usingDecl | .usingShadowDecl | .usingDirectiveDecl
  | .unresolvedUsingTypenameDecl | .unresolvedUsingValueDecl => true
  | .typedefDecl u _ _ | .typeAliasDecl u _ _ => !u.isVariablyModifiedType
  | .enumDecl _ | .cxxRecordDecl _ => true
  | .enumConstantDecl | .indirectFieldDecl | .parmVarDeclKind => true
  | .varDeclKind v | .decompositionDecl v =>
    !(v.isThisDeclarationADefinition &&
      (v.isStaticLocal ||
       (!v.type.isDependentType && !v.type.isLiteralType) ||
       (!v.type.isDependentType && !v.hasInit && !v.isCXXForRangeDecl)))
  | .namespaceAliasDecl | .functionDeclKind => true
  | .otherDecl => false

/-- The pure legality verdict of the statement-body policy for a whole
declaration statement. -/
def DeclStmt.legalInConstexprBody (ds : DeclStmt) : Bool :=
  ds.decls.all LocalDecl.legalInConstexprBody

/-- Modelled from the spec: `Sema::CheckConstexprFunctionBody` is clang library
code outside this repository; per spec section 4.1 step 3b the function-body
rules apply the Statement-Body Legality Checker (section 4.3) to every direct
child declaration-statement of the body, plus further per-language constraints
delegated to the Semantic Query Service, carried here as the oracle field
`semaBodyOtherOk`. -/
def Sema.CheckConstexprFunctionBody (f : FunctionDecl) : Bool :=
  f.semaBodyOtherOk && f.body.all DeclStmt.legalInConstexprBody

/-- The loop of `CheckConstexprParameterTypes` (src/main.cpp lines 134-147):
for each parameter in order, a non-dependent type is checked with
`Sema::RequireLiteralType` (failure returns `false` immediately); `ArgIndex`
counts positions from `0`. -/
def CheckConstexprParameterTypesAux (isCtor : Bool) :
    List ParmVarDecl → Nat → DiagnosticsEngine → DiagnosticsEngine × Bool
  | [], _, de => (de, true)
  | pd :: rest, argIndex, de =>
    if !pd.type.isDependentType then
      match Sema.RequireLiteralType de pd.location pd.type
          DiagId.err_constexpr_non_literal_param
          [argIndex + 1, isCtor.toNat] (some pd.sourceRange) with
      | (de1, true) => (de1, false)
      | (de1, false) => CheckConstexprParameterTypesAux isCtor rest (argIndex + 1) de1
    else CheckConstexprParameterTypesAux isCtor rest (argIndex + 1) de

/-- `CheckConstexprParameterTypes` (src/main.cpp lines 132-149): check that all
parameter types of the function are literal types. -/
def CheckConstexprParameterTypes (de : DiagnosticsEngine) (f : FunctionDecl) :
    DiagnosticsEngine × Bool :=
  CheckConstexprParameterTypesAux f.isCtor f.params 0 de

/-- The pure verdict of the parameter check: every parameter type is dependent
or literal. -/
def checkConstexprParameterTypesPure (f : FunctionDecl) : Bool :=
  f.params.all (fun pd => pd.type.isDependentType || pd.type.isLiteralType)

/-- The warning diagnostic emitted for an eligible function
(src/main.cpp lines 211-216). -/
def functionCanBeConstexprDiag (loc : SourceLocation) : Diagnostic :=
  { loc := loc,
    id := DiagId.customDiag DiagLevel.warningLevel "function can be constexpr",
    args := [], range := none,
    fixit := some { loc := loc, insertion := "constexpr " } }

/-- `ConstexprFunctionASTVisitor::VisitFunctionDecl` (src/main.cpp lines
168-219). The visitor's state is the diagnostics engine; the function node is
returned (possibly with its constexpr flag newly set). Diagnostics are
suppressed for the three-check probe and restored on every exit path of the
probe scope (the `unique_ptr` deleter), after which an eligible function is
marked constexpr and the warning with its fix-it is reported. -/
def ConstexprFunctionASTVisitor.VisitFunctionDecl (sm : SourceManager)
    (de : DiagnosticsEngine) (f : FunctionDecl) : DiagnosticsEngine × FunctionDecl :=
  let loc := f.sourceBegin
  if !(sm.isWrittenInMainFile loc) then (de, f)
  else if f.isConstexpr then (de, f)
  else if f.isMain then (de, f)
  else
    let de1 := { de with suppressAll := true }
    if !(Sema.CheckConstexprFunctionDecl f) then ({ de1 with suppressAll := false }, f)
    else if !(Sema.CheckConstexprFunctionBody f) then ({ de1 with suppressAll := false }, f)
    else
      match CheckConstexprParameterTypes de1 f with
      | (de2, ok) =>
        if !ok then ({ de2 with suppressAll := false }, f)
        else
          let de3 := { de2 with suppressAll := false }
          (de3.report (functionCanBeConstexprDiag loc), { f with isConstexpr := true })

/-- The warning diagnostic emitted for an eligible local variable
(src/main.cpp lines 275-280). -/
def variableCanBeConstexprDiag (loc : SourceLocation) : Diagnostic :=
  { loc := loc,
    id := DiagId.customDiag DiagLevel.warningLevel "variable can be constexpr",
    args := [], range := none,
    fixit := some { loc := loc, insertion := "constexpr " } }

/-- `ConstexprVarDeclVisitor::VisitDeclStmt` (src/main.cpp lines 237-283).
The variable's constexpr flag is never mutated: the visitor's only state is
the diagnostics engine. -/
def ConstexprVarDeclVisitor.VisitDeclStmt (de : DiagnosticsEngine) (stmt : DeclStmt) :
    DiagnosticsEngine :=
  if !stmt.isSingleDecl then de
  else
    match stmt.decls.head? with
    | none => de
    | some d =>
      match d.dynCastVarDecl with
      | none => de
      | some var =>
        if var.isConstexpr then de
        else
          let loc := stmt.beginLoc
          match var.init with
          | none => de
          | some init =>
            if !var.checkInitIsICE then de
            else if init.isValueDependent then de
            else if !var.evaluateValue then de
            else if !var.isInitICE then de
            else de.report (variableCanBeConstexprDiag loc)

/-- The inner visitor's traversal of one function: it visits the declaration
statements of the function's body in order. -/
def ConstexprVarDeclVisitor.TraverseFunctionDecl (de : DiagnosticsEngine)
    (f : FunctionDecl) : DiagnosticsEngine :=
  f.body.foldl ConstexprVarDeclVisitor.VisitDeclStmt de

/-- `ConstexprVarDeclFunctionASTVisitor::VisitFunctionDecl` (src/main.cpp lines
292-306): skip functions outside the main file and functions already
constexpr; otherwise run the inner variable visitor over the function. -/
def ConstexprVarDeclFunctionASTVisitor.VisitFunctionDecl (sm : SourceManager)
    (de : DiagnosticsEngine) (f : FunctionDecl) : DiagnosticsEngine :=
  if !(sm.isWrittenInMainFile f.sourceBegin) then de
  else if f.isConstexpr then de
  else ConstexprVarDeclVisitor.TraverseFunctionDecl de f

/-- The function pass over the translation unit: visit every function in
order, threading the diagnostics engine and collecting the updated nodes. -/
def ConstexprFunctionASTVisitor.TraverseDecl (sm : SourceManager) :
    List FunctionDecl → DiagnosticsEngine → DiagnosticsEngine × List FunctionDecl
  | [], de => (de, [])
  | f :: fs, de =>
    match ConstexprFunctionASTVisitor.VisitFunctionDecl sm de f with
    | (de1, f1) =>
      match ConstexprFunctionASTVisitor.TraverseDecl sm fs de1 with
      | (de2, fs1) => (de2, f1 :: fs1)

/-- The variable pass over the translation unit: visit every function in
order, threading the diagnostics engine. -/
def ConstexprVarDeclFunctionASTVisitor.TraverseDecl (sm : SourceManager) :
    List FunctionDecl → DiagnosticsEngine → DiagnosticsEngine
  | [], de => de
  | f :: fs, de =>
    ConstexprVarDeclFunctionASTVisitor.TraverseDecl sm fs
      (ConstexprVarDeclFunctionASTVisitor.VisitFunctionDecl sm de f)

/-- `ConstexprEverythingASTConsumer::HandleTranslationUnit` (src/main.cpp lines
320-323): the function pass runs first over the whole unit, then the variable
pass runs over the now-mutated unit. -/
def ConstexprEverythingASTConsumer.HandleTranslationUnit (sm : SourceManager)
    (de : DiagnosticsEngine) (tu : List FunctionDecl) :
    DiagnosticsEngine × List FunctionDecl :=
  match ConstexprFunctionASTVisitor.TraverseDecl sm tu de with
  | (de1, tu1) => (ConstexprVarDeclFunctionASTVisitor.TraverseDecl sm tu1 de1, tu1)

/-- The conjunction of the three eligibility checks of the function visitor's
probe. -/
def funcChecksOk (f : FunctionDecl) : Bool :=
  Sema.CheckConstexprFunctionDecl f && Sema.CheckConstexprFunctionBody f &&
    checkConstexprParameterTypesPure f

/-- The AST node produced for one function by the function pass. -/
def visitedFunction (sm : SourceManager) (f : FunctionDecl) : FunctionDecl :=
  if !(sm.isWrittenInMainFile f.sourceBegin) || f.isConstexpr || f.isMain then f
  else if funcChecksOk f then { f with isConstexpr := true } else f

/-!
The variant program in which the never-called checker `CheckConstexprDeclStmt`
has been removed: the remaining declarations of src/main.cpp, restated
verbatim. The definition tree of `VariantHandleTranslationUnit` contains no
reference to `CheckConstexprDeclStmt`, `CheckConstexprDeclStmtAux` or
`constexprDeclStep`.
-/

/-- `ConstexprFunctionASTVisitor::VisitFunctionDecl` in the variant program
without `CheckConstexprDeclStmt`. -/
def VariantVisitFunctionDecl (sm : SourceManager)
    (de : DiagnosticsEngine) (f : FunctionDecl) : DiagnosticsEngine × FunctionDecl :=
  let loc := f.sourceBegin
  if !(sm.isWrittenInMainFile loc) then (de, f)
  else if f.isConstexpr then (de, f)
  else if f.isMain then (de, f)
  else
    let de1 := { de with suppressAll := true }
    if !(Sema.CheckConstexprFunctionDecl f) then ({ de1 with suppressAll := false }, f)
    else if !(Sema.CheckConstexprFunctionBody f) then ({ de1 with suppressAll := false }, f)
    else
      match CheckConstexprParameterTypes de1 f with
      | (de2, ok) =>
        if !ok then ({ de2 with suppressAll := false }, f)
        else
          let de3 := { de2 with suppressAll := false }
          (de3.report (functionCanBeConstexprDiag loc), { f with isConstexpr := true })

/-- The function pass of the variant program. -/
def VariantFunctionTraverseDecl (sm : SourceManager) :
    List FunctionDecl → DiagnosticsEngine → DiagnosticsEngine × List FunctionDecl
  | [], de => (de, [])
  | f :: fs, de =>
    match VariantVisitFunctionDecl sm de f with
    | (de1, f1) =>
      match VariantFunctionTraverseDecl sm fs de1 with
      | (de2, fs1) => (de2, f1 :: fs1)

/-- `ConstexprVarDeclVisitor::VisitDeclStmt` in the variant program. -/
def VariantVarDeclVisitDeclStmt (de : DiagnosticsEngine) (stmt : DeclStmt) :
    DiagnosticsEngine :=
  if !stmt.isSingleDecl then de
  else
    match stmt.decls.head? with
    | none => de
    | some d =>
      match d.dynCastVarDecl with
      | none => de
      | some var =>
        if var.isConstexpr then de
        else
          let loc := stmt.beginLoc
          match var.init with
          | none => de
          | some init =>
            if !var.checkInitIsICE then de
            else if init.isValueDependent then de
            else if !var.evaluateValue then de
            else if !var.isInitICE then de
            else de.report (variableCanBeConstexprDiag loc)

/-- `ConstexprVarDeclFunctionASTVisitor::VisitFunctionDecl` in the variant
program. -/
def VariantVarDeclVisitFunctionDecl (sm : SourceManager)
    (de : DiagnosticsEngine) (f : FunctionDecl) : DiagnosticsEngine :=
  if !(sm.isWrittenInMainFile f.sourceBegin) then de
  else if f.isConstexpr then de
  else f.body.foldl VariantVarDeclVisitDeclStmt de

/-- The variable pass of the variant program. -/
def VariantVarDeclTraverseDecl (sm : SourceManager) :
    List FunctionDecl → DiagnosticsEngine → DiagnosticsEngine
  | [], de => de
  | f :: fs, de =>
    VariantVarDeclTraverseDecl sm fs (VariantVarDeclVisitFunctionDecl sm de f)

/-- `ConstexprEverythingASTConsumer::HandleTranslationUnit` in the variant
program. -/
def VariantHandleTranslationUnit (sm : SourceManager)
    (de : DiagnosticsEngine) (tu : List FunctionDecl) :
    DiagnosticsEngine × List FunctionDecl :=
  match VariantFunctionTraverseDecl sm tu de with
  | (de1, tu1) => (VariantVarDeclTraverseDecl sm tu1 de1, tu1)

/-!
Concrete inputs used by counterexamples and witnesses.
-/

/-- A source manager for which every location is in the main file. -/
def smW : SourceManager := fun _ => true

/-- A fresh diagnostics engine: nothing suppressed, nothing emitted. -/
def deStart : DiagnosticsEngine := { suppressAll := false, emitted := [] }

/-- A diagnostics engine whose suppression flag is still on. -/
def deSuppressed : DiagnosticsEngine := { suppressAll := true, emitted := [] }

/-- A literal, non-dependent, non-variably-modified type. -/
def intType : QualType :=
  { isDependentType := false, isLiteralType := true, isVariablyModifiedType := false }

/-- An eligible ordinary function: in the main file, not constexpr, not main,
one literal-typed parameter, empty body, both sema oracles passing. -/
def c1Fn : FunctionDecl :=
  { sourceBegin := 30, isConstexpr := false, isMain := false, isCtor := false,
    params := [{ location := 31, sourceRange := 32, type := intType }],
    body := [], semaDeclOk := true, semaBodyOtherOk := true }

/-- A function already marked constexpr. -/
def c2Fn : FunctionDecl :=
  { sourceBegin := 40, isConstexpr := true, isMain := false, isCtor := false,
    params := [], body := [], semaDeclOk := true, semaBodyOtherOk := true }

/-- An eligible function that the function pass newly marks constexpr. -/
def c2Fn2 : FunctionDecl :=
  { sourceBegin := 41, isConstexpr := false, isMain := false, isCtor := false,
    params := [], body := [], semaDeclOk := true, semaBodyOtherOk := true }

/-- A local variable whose initializer is value-dependent but whose oracle
checks all pass: the claimed five conditions hold, yet the code skips it. -/
def c3Var : VarDecl :=
  { location := 5, isThisDeclarationADefinition := true, isStaticLocal := false,
    tlsDynamic := false,
    type := { isDependentType := true, isLiteralType := true, isVariablyModifiedType := false },
    init := some { isValueDependent := true }, isCXXForRangeDecl := false,
    isConstexpr := false, checkInitIsICE := true, evaluateValue := true, isInitICE := true }

/-- The single-declaration statement declaring `c3Var`. -/
def c3Stmt : DeclStmt := { beginLoc := 4, decls := [LocalDecl.varDeclKind c3Var] }

/-- A fully eligible local variable: non-dependent initializer, all oracle
checks passing. -/
def c3GoodVar : VarDecl :=
  { location := 8, isThisDeclarationADefinition := true, isStaticLocal := false,
    tlsDynamic := false, type := intType,
    init := some { isValueDependent := false }, isCXXForRangeDecl := false,
    isConstexpr := false, checkInitIsICE := true, evaluateValue := true, isInitICE := true }

/-- The single-declaration statement declaring `c3GoodVar`. -/
def c3GoodStmt : DeclStmt := { beginLoc := 7, decls := [LocalDecl.varDeclKind c3GoodVar] }

/-- A definition of a local variable of static storage duration. -/
def c4Var : VarDecl :=
  { location := 21, isThisDeclarationADefinition := true, isStaticLocal := true,
    tlsDynamic := false, type := intType, init := some { isValueDependent := false },
    isCXXForRangeDecl := false, isConstexpr := false, checkInitIsICE := true,
    evaluateValue := true, isInitICE := true }

/-- The statement declaring the static local `c4Var`. -/
def c4Stmt : DeclStmt := { beginLoc := 20, decls := [LocalDecl.varDeclKind c4Var] }

/-- A function whose body contains a static local variable definition but
would otherwise qualify. -/
def c4Fn : FunctionDecl :=
  { sourceBegin := 19, isConstexpr := false, isMain := false, isCtor := false,
    params := [], body := [c4Stmt], semaDeclOk := true, semaBodyOtherOk := true }

/-- A function that fails the probe (its sema declaration check fails). -/
def c5Fn : FunctionDecl :=
  { sourceBegin := 50, isConstexpr := false, isMain := false, isCtor := false,
    params := [], body := [], semaDeclOk := false, semaBodyOtherOk := true }

/-- A dependent parameter type. -/
def dependentType : QualType :=
  { isDependentType := true, isLiteralType := false, isVariablyModifiedType := false }

/-- A non-dependent, non-literal parameter type. -/
def nonLiteralType : QualType :=
  { isDependentType := false, isLiteralType := false, isVariablyModifiedType := false }

/-- A function whose parameter list is a dependent parameter followed by a
non-dependent non-literal parameter. -/
def c6Fn : FunctionDecl :=
  { sourceBegin := 60, isConstexpr := false, isMain := false, isCtor := false,
    params := [{ location := 61, sourceRange := 62, type := dependentType },
               { location := 63, sourceRange := 64, type := nonLiteralType }],
    body := [], semaDeclOk := true, semaBodyOtherOk := true }

/-- A fully eligible local variable declared in a multi-declarator statement. -/
def c8VarA : VarDecl :=
  { location := 71, isThisDeclarationADefinition := true, isStaticLocal := false,
    tlsDynamic := false, type := intType, init := some { isValueDependent := false },
    isCXXForRangeDecl := false, isConstexpr := false, checkInitIsICE := true,
    evaluateValue := true, isInitICE := true }

/-- A second fully eligible local variable in the same statement. -/
def c8VarB : VarDecl :=
  { location := 72, isThisDeclarationADefinition := true, isStaticLocal := false,
    tlsDynamic := false, type := intType, init := some { isValueDependent := false },
    isCXXForRangeDecl := false, isConstexpr := false, checkInitIsICE := true,
    evaluateValue := true, isInitICE := true }

/-- A multi-declarator statement, both of whose variables would individually
qualify. -/
def c8Stmt : DeclStmt :=
  { beginLoc := 70, decls := [LocalDecl.varDeclKind c8VarA, LocalDecl.varDeclKind c8VarB] }

/-- A function with an empty body. -/
def c9f : FunctionDecl :=
  { sourceBegin := 80, isConstexpr := false, isMain := false, isCtor := false,
    params := [], body := [], semaDeclOk := true, semaBodyOtherOk := true }

/-- A function agreeing with `c9f` on every field the three semantic query
calls and the visitor's preconditions consult, but with a different body. -/
def c9g : FunctionDecl :=
  { sourceBegin := 80, isConstexpr := false, isMain := false, isCtor := false,
    params := [], body := [{ beginLoc := 81, decls := [LocalDecl.staticAssertDecl] }],
    semaDeclOk := true, semaBodyOtherOk := true }

/-- A fully eligible local variable of the entry point. -/
def mainFnVar : VarDecl :=
  { location := 12, isThisDeclarationADefinition := true, isStaticLocal := false,
    tlsDynamic := false, type := intType, init := some { isValueDependent := false },
    isCXXForRangeDecl := false, isConstexpr := false, checkInitIsICE := true,
    evaluateValue := true, isInitICE := true }

/-- The single-declaration statement declaring `mainFnVar`. -/
def mainFnStmt : DeclStmt := { beginLoc := 11, decls := [LocalDecl.varDeclKind mainFnVar] }

/-- The entry-point function, in the main file, with one eligible local. -/
def mainFn : FunctionDecl :=
  { sourceBegin := 10, isConstexpr := false, isMain := true, isCtor := false,
    params := [], body := [mainFnStmt], semaDeclOk := true, semaBodyOtherOk := true }

/-!
Shared characterization lemmas.
-/

/-- Reporting while suppressed is a no-op. -/
theorem DiagnosticsEngine.report_suppressed (de : DiagnosticsEngine) (d : Diagnostic)
    (h : de.suppressAll = true) : de.report d = de := by
  simp [DiagnosticsEngine.report, h]

/-- Reporting while not suppressed appends the record. -/
theorem DiagnosticsEngine.report_unsuppressed (de : DiagnosticsEngine) (d : Diagnostic)
    (h : de.suppressAll = false) :
    de.report d = { de with emitted := de.emitted ++ [d] } := by
  simp [DiagnosticsEngine.report, h]

/-- While diagnostics are suppressed, the parameter check leaves the engine
unchanged. -/
theorem checkConstexprParameterTypesAux_suppressed (isCtor : Bool) (l : List ParmVarDecl)
    (n : Nat) (de : DiagnosticsEngine) (h : de.suppressAll = true) :
    (CheckConstexprParameterTypesAux isCtor l n de).1 = de := by
  induction l generalizing n with
  | nil => rfl
  | cons pd rest ih =>
    by_cases hdep : pd.type.isDependentType
    · simpa [CheckConstexprParameterTypesAux, hdep] using ih (n + 1)
    · by_cases hlit : pd.type.isLiteralType
      · simpa [CheckConstexprParameterTypesAux, Sema.RequireLiteralType, hdep, hlit]
          using ih (n + 1)
      · simp [CheckConstexprParameterTypesAux, Sema.RequireLiteralType, hdep, hlit,
          DiagnosticsEngine.report, h]

/-- The boolean verdict of the parameter check is exactly: every parameter
type is dependent or literal. -/
theorem checkConstexprParameterTypesAux_verdict (isCtor : Bool) (l : List ParmVarDecl)
    (n : Nat) (de : DiagnosticsEngine) :
    (CheckConstexprParameterTypesAux isCtor l n de).2 =
      l.all (fun pd => pd.type.isDependentType || pd.type.isLiteralType) := by
  induction l generalizing n de with
  | nil => rfl
  | cons pd rest ih =>
    by_cases hdep : pd.type.isDependentType
    · simpa [CheckConstexprParameterTypesAux, hdep] using ih (n + 1) de
    · by_cases hlit : pd.type.isLiteralType
      · simpa [CheckConstexprParameterTypesAux, Sema.RequireLiteralType, hdep, hlit]
          using ih (n + 1) de
      · simp [CheckConstexprParameterTypesAux, Sema.RequireLiteralType, hdep, hlit]

/-- When every parameter passes, the engine is untouched and the verdict is
`true`. -/
theorem checkConstexprParameterTypesAux_all_pass (isCtor : Bool) (l : List ParmVarDecl)
    (n : Nat) (de : DiagnosticsEngine)
    (h : l.all (fun pd => pd.type.isDependentType || pd.type.isLiteralType) = true) :
    CheckConstexprParameterTypesAux isCtor l n de = (de, true) := by
  induction l generalizing n de with
  | nil => rfl
  | cons pd rest ih =>
    simp only [List.all_cons, Bool.and_eq_true, Bool.or_eq_true] at h
    rcases h with ⟨hpd, hrest⟩
    by_cases hdep : pd.type.isDependentType
    · simpa [CheckConstexprParameterTypesAux, hdep] using ih (n + 1) de hrest
    · have hlit : pd.type.isLiteralType = true := by tauto
      simpa [CheckConstexprParameterTypesAux, Sema.RequireLiteralType, hdep, hlit]
        using ih (n + 1) de hrest

/-- Full characterization of one function visit: a skipped function leaves the
state untouched; a probed function restores diagnostic suppression to off, and
exactly when all three checks pass it is marked constexpr and the warning is
recorded. -/
theorem visitFunctionDecl_eq (sm : SourceManager) (de : DiagnosticsEngine) (f : FunctionDecl) :
    ConstexprFunctionASTVisitor.VisitFunctionDecl sm de f =
      if !(sm.isWrittenInMainFile f.sourceBegin) || f.isConstexpr || f.isMain then (de, f)
      else if funcChecksOk f then
        ({ suppressAll := false,
           emitted := de.emitted ++ [functionCanBeConstexprDiag f.sourceBegin] },
         { f with isConstexpr := true })
      else ({ de with suppressAll := false }, f) := by
  by_cases hsm : sm.isWrittenInMainFile f.sourceBegin
  · by_cases hcx : f.isConstexpr
    · simp [ConstexprFunctionASTVisitor.VisitFunctionDecl, hsm, hcx]
    · by_cases hm : f.isMain
      · simp [ConstexprFunctionASTVisitor.VisitFunctionDecl, hsm, hcx, hm]
      · by_cases hdecl : Sema.CheckConstexprFunctionDecl f
        · by_cases hbody : Sema.CheckConstexprFunctionBody f
          · by_cases hpar : checkConstexprParameterTypesPure f
            · have hall : CheckConstexprParameterTypes { de with suppressAll := true } f =
                  ({ de with suppressAll := true }, true) :=
                checkConstexprParameterTypesAux_all_pass f.isCtor f.params 0 _ hpar
              simp [ConstexprFunctionASTVisitor.VisitFunctionDecl, hsm, hcx, hm, hdecl,
                hbody, hall, funcChecksOk, hpar, DiagnosticsEngine.report]
            · have h1 : (CheckConstexprParameterTypes { de with suppressAll := true } f).1 =
                  { de with suppressAll := true } :=
                checkConstexprParameterTypesAux_suppressed f.isCtor f.params 0 _ rfl
              have h2 : (CheckConstexprParameterTypes { de with suppressAll := true } f).2 =
                  checkConstexprParameterTypesPure f :=
                checkConstexprParameterTypesAux_verdict f.isCtor f.params 0 _
              rcases hpt : CheckConstexprParameterTypes { de with suppressAll := true } f
                with ⟨de2, ok⟩
              rw [hpt] at h1 h2
              simp [ConstexprFunctionASTVisitor.VisitFunctionDecl, hsm, hcx, hm, hdecl,
                hbody, hpt, h1, h2, funcChecksOk, hpar]
          · simp [ConstexprFunctionASTVisitor.VisitFunctionDecl, hsm, hcx, hm, hdecl,
              hbody, funcChecksOk]
        · simp [ConstexprFunctionASTVisitor.VisitFunctionDecl, hsm, hcx, hm, hdecl,
            funcChecksOk]
  · simp [ConstexprFunctionASTVisitor.VisitFunctionDecl, hsm]

/-- The continue/return bit of one switch iteration is exactly the pure
legality verdict of the declaration; it does not depend on the threaded
state. -/
theorem constexprDeclStep_fst (isCtor cxx14 : Bool) (b : SourceLocation) (d : LocalDecl)
    (de : DiagnosticsEngine) (cl : Option SourceLocation) :
    (constexprDeclStep isCtor cxx14 b d de cl).1 = d.legalInConstexprBody := by
  cases d with
  | typedefDecl u tlb tlr =>
    by_cases hvm : u.isVariablyModifiedType <;>
      simp [constexprDeclStep, LocalDecl.legalInConstexprBody, hvm]
  | typeAliasDecl u tlb tlr =>
    by_cases hvm : u.isVariablyModifiedType <;>
      simp [constexprDeclStep, LocalDecl.legalInConstexprBody, hvm]
  | enumDecl isDef =>
    by_cases hd : isDef <;> simp [constexprDeclStep, LocalDecl.legalInConstexprBody, hd]
  | cxxRecordDecl isDef =>
    by_cases hd : isDef <;> simp [constexprDeclStep, LocalDecl.legalInConstexprBody, hd]
  | varDeclKind v =>
    by_cases hdef : v.isThisDeclarationADefinition <;>
      by_cases hs : v.isStaticLocal <;>
      by_cases hdep : v.type.isDependentType <;>
      by_cases hlit : v.type.isLiteralType <;>
      by_cases hin : v.hasInit <;>
      by_cases hfr : v.isCXXForRangeDecl <;>
      simp [constexprDeclStep, LocalDecl.legalInConstexprBody, Sema.RequireLiteralType,
        hdef, hs, hdep, hlit, hin, hfr]
  | decompositionDecl v =>
    by_cases hdef : v.isThisDeclarationADefinition <;>
      by_cases hs : v.isStaticLocal <;>
      by_cases hdep : v.type.isDependentType <;>
      by_cases hlit : v.type.isLiteralType <;>
      by_cases hin : v.hasInit <;>
      by_cases hfr : v.isCXXForRangeDecl <;>
      simp [constexprDeclStep, LocalDecl.legalInConstexprBody, Sema.RequireLiteralType,
        hdef, hs, hdep, hlit, hin, hfr]
  | _ => simp [constexprDeclStep, LocalDecl.legalInConstexprBody]

/-- The boolean verdict of the repository's statement-body checker loop is
exactly the pure legality of every declaration in the statement. -/
theorem checkConstexprDeclStmtAux_verdict (isCtor cxx14 : Bool) (b : SourceLocation)
    (l : List LocalDecl) (de : DiagnosticsEngine) (cl : Option SourceLocation) :
    (CheckConstexprDeclStmtAux isCtor cxx14 b l de cl).2.2 =
      l.all LocalDecl.legalInConstexprBody := by
  induction l generalizing de cl with
  | nil => rfl
  | cons d rest ih =>
    have hf := constexprDeclStep_fst isCtor cxx14 b d de cl
    rcases hstep : constexprDeclStep isCtor cxx14 b d de cl with ⟨c, de1, cl1⟩
    rw [hstep] at hf
    cases c with
    | false =>
      simp [CheckConstexprDeclStmtAux, hstep, List.all_cons, ← hf]
    | true =>
      simp [CheckConstexprDeclStmtAux, hstep, List.all_cons, ← hf, ih de1 cl1]

/-- The verdict of `CheckConstexprDeclStmt` is the pure legality of the
statement, independently of the threaded state. -/
theorem checkConstexprDeclStmt_verdict (de : DiagnosticsEngine) (isCtor cxx14 : Bool)
    (ds : DeclStmt) (cl : Option SourceLocation) :
    (CheckConstexprDeclStmt de isCtor cxx14 ds cl).2.2 = ds.legalInConstexprBody :=
  checkConstexprDeclStmtAux_verdict isCtor cxx14 ds.beginLoc ds.decls de cl

/-- Short-circuiting of the statement-body checker: once the loop reaches an
illegal declaration it returns, so everything after that declaration is never
examined — the result is the same for any two suffixes. -/
theorem checkConstexprDeclStmtAux_shortCircuit (isCtor cxx14 : Bool) (b : SourceLocation)
    (pre : List LocalDecl) (d : LocalDecl) (hd : d.legalInConstexprBody = false)
    (s1 s2 : List LocalDecl) (de : DiagnosticsEngine) (cl : Option SourceLocation) :
    CheckConstexprDeclStmtAux isCtor cxx14 b (pre ++ d :: s1) de cl =
      CheckConstexprDeclStmtAux isCtor cxx14 b (pre ++ d :: s2) de cl := by
  induction pre generalizing de cl with
  | nil =>
    have hf := constexprDeclStep_fst isCtor cxx14 b d de cl
    rcases hstep : constexprDeclStep isCtor cxx14 b d de cl with ⟨c, de1, cl1⟩
    rw [hstep, hd] at hf
    subst hf
    simp [CheckConstexprDeclStmtAux, hstep]
  | cons e pre ih =>
    rcases hstep : constexprDeclStep isCtor cxx14 b e de cl with ⟨c, de1, cl1⟩
    cases c with
    | false => simp [CheckConstexprDeclStmtAux, hstep]
    | true => simp [CheckConstexprDeclStmtAux, hstep, ih de1 cl1]

/-- A definition of a local variable of static (or thread) storage duration is
illegal in a constexpr function body. -/
theorem staticLocal_illegal (v : VarDecl) (hdef : v.isThisDeclarationADefinition = true)
    (hs : v.isStaticLocal = true) :
    (LocalDecl.varDeclKind v).legalInConstexprBody = false := by
  simp [LocalDecl.legalInConstexprBody, hdef, hs]

/-- The function-node component of a visit is `visitedFunction`, independent
of the diagnostics state. -/
theorem visitFunctionDecl_snd (sm : SourceManager) (de : DiagnosticsEngine)
    (f : FunctionDecl) :
    (ConstexprFunctionASTVisitor.VisitFunctionDecl sm de f).2 = visitedFunction sm f := by
  rw [visitFunctionDecl_eq, visitedFunction]
  by_cases h1 : !(sm.isWrittenInMainFile f.sourceBegin) || f.isConstexpr || f.isMain
  · simp [h1]
  · by_cases h2 : funcChecksOk f <;> simp [h1, h2]

/-- Visiting the node produced by a previous visit changes nothing: the
emitted list is untouched and the node is returned unchanged. -/
theorem visitedFunction_stable (sm : SourceManager) (f : FunctionDecl)
    (de : DiagnosticsEngine) :
    (ConstexprFunctionASTVisitor.VisitFunctionDecl sm de (visitedFunction sm f)).1.emitted =
        de.emitted ∧
      (ConstexprFunctionASTVisitor.VisitFunctionDecl sm de (visitedFunction sm f)).2 =
        visitedFunction sm f := by
  by_cases h1 : !(sm.isWrittenInMainFile f.sourceBegin) || f.isConstexpr || f.isMain
  · have hv : visitedFunction sm f = f := by simp [visitedFunction, h1]
    rw [hv, visitFunctionDecl_eq, if_pos h1]
    exact ⟨rfl, rfl⟩
  · by_cases h2 : funcChecksOk f
    · have hv : visitedFunction sm f = { f with isConstexpr := true } := by
        simp [visitedFunction, h1, h2]
      rw [hv, visitFunctionDecl_eq]
      simp
    · have hv : visitedFunction sm f = f := by simp [visitedFunction, h1, h2]
      rw [hv, visitFunctionDecl_eq, if_neg h1, if_neg h2]
      exact ⟨rfl, rfl⟩

/-- The translation-unit output of the function pass, node by node. -/
theorem traverseDecl_snd (sm : SourceManager) (tu : List FunctionDecl)
    (de : DiagnosticsEngine) :
    (ConstexprFunctionASTVisitor.TraverseDecl sm tu de).2 = tu.map (visitedFunction sm) := by
  induction tu generalizing de with
  | nil => rfl
  | cons f fs ih =>
    rcases hv : ConstexprFunctionASTVisitor.VisitFunctionDecl sm de f with ⟨de1, f1⟩
    have h2 := visitFunctionDecl_snd sm de f
    rw [hv] at h2
    rcases ht : ConstexprFunctionASTVisitor.TraverseDecl sm fs de1 with ⟨de2, fs1⟩
    have h3 := ih de1
    rw [ht] at h3
    simp [ConstexprFunctionASTVisitor.TraverseDecl, hv, ht, h2, h3]

/-- A traversal over functions on which every visit is inert leaves the
emitted diagnostics and the nodes unchanged. -/
theorem traverseDecl_stable (sm : SourceManager) (tu : List FunctionDecl)
    (h : ∀ f ∈ tu, ∀ de : DiagnosticsEngine,
      (ConstexprFunctionASTVisitor.VisitFunctionDecl sm de f).1.emitted = de.emitted ∧
        (ConstexprFunctionASTVisitor.VisitFunctionDecl sm de f).2 = f)
    (de : DiagnosticsEngine) :
    (ConstexprFunctionASTVisitor.TraverseDecl sm tu de).1.emitted = de.emitted ∧
      (ConstexprFunctionASTVisitor.TraverseDecl sm tu de).2 = tu := by
  induction tu generalizing de with
  | nil => exact ⟨rfl, rfl⟩
  | cons f fs ih =>
    rcases hv : ConstexprFunctionASTVisitor.VisitFunctionDecl sm de f with ⟨de1, f1⟩
    have hf := h f (List.mem_cons_self f fs) de
    rw [hv] at hf
    rcases ht : ConstexprFunctionASTVisitor.TraverseDecl sm fs de1 with ⟨de2, fs1⟩
    have hrest := ih (fun g hg de' => h g (List.mem_cons_of_mem f hg) de') de1
    rw [ht] at hrest
    refine ⟨?_, ?_⟩
    · simp [ConstexprFunctionASTVisitor.TraverseDecl, hv, ht]
      rw [hrest.1, hf.1]
    · simp [ConstexprFunctionASTVisitor.TraverseDecl, hv, ht, hf.2, hrest.2]

/-!
Claim theorems.
-/

/-- C1: for a function in the primary source file that is not already
constexpr and is not the entry point, if all three eligibility checks
(function-declaration rules, function-body rules, parameter literalness)
pass, the Function Eligibility Visitor sets the constexpr flag and emits
exactly one Warning diagnostic at the function's start location with message
"function can be constexpr" and a fix-it inserting "constexpr " there; if any
check fails, the flag is unchanged and nothing is emitted. -/
theorem c1_function_eligibility (sm : SourceManager) (de : DiagnosticsEngine)
    (f : FunctionDecl) (hsm : sm.isWrittenInMainFile f.sourceBegin = true)
    (hcx : f.isConstexpr = false) (hm : f.isMain = false) :
    (Sema.CheckConstexprFunctionDecl f = true → Sema.CheckConstexprFunctionBody f = true →
      checkConstexprParameterTypesPure f = true →
      ConstexprFunctionASTVisitor.VisitFunctionDecl sm de f =
        ({ suppressAll := false,
           emitted := de.emitted ++
             [{ loc := f.sourceBegin,
                id := DiagId.customDiag DiagLevel.warningLevel "function can be constexpr",
                args := [], range := none,
                fixit := some { loc := f.sourceBegin, insertion := "constexpr " } }] },
         { f with isConstexpr := true })) ∧
    (Sema.CheckConstexprFunctionDecl f = false ∨ Sema.CheckConstexprFunctionBody f = false ∨
        checkConstexprParameterTypesPure f = false →
      ConstexprFunctionASTVisitor.VisitFunctionDecl sm de f =
        ({ de with suppressAll := false }, f)) := by
  rw [visitFunctionDecl_eq]
  constructor
  · intro h1 h2 h3
    simp [hsm, hcx, hm, funcChecksOk, h1, h2, h3, functionCanBeConstexprDiag]
  · intro h
    have hck : funcChecksOk f = false := by
      rcases h with h | h | h <;> simp [funcChecksOk, h]
    simp [hsm, hcx, hm, hck]

/-- C1 witness: a concrete eligible function is marked and gets exactly the
one warning with its fix-it. -/
theorem c1_function_eligibility_witness :
    ConstexprFunctionASTVisitor.VisitFunctionDecl smW deStart c1Fn =
      ({ suppressAll := false,
         emitted := deStart.emitted ++
           [{ loc := c1Fn.sourceBegin,
              id := DiagId.customDiag DiagLevel.warningLevel "function can be constexpr",
              args := [], range := none,
              fixit := some { loc := c1Fn.sourceBegin, insertion := "constexpr " } }] },
       { c1Fn with isConstexpr := true }) :=
  (c1_function_eligibility smW deStart c1Fn rfl rfl rfl).1 rfl rfl rfl

/-- C5: whenever the per-function probe runs (the function is in the primary
file, not constexpr, not main), the diagnostics-suppressed flag is false
after the visit returns, whichever check the probe fails at and also on
success. -/
theorem c5_suppression_restored (sm : SourceManager) (de : DiagnosticsEngine)
    (f : FunctionDecl) (hsm : sm.isWrittenInMainFile f.sourceBegin = true)
    (hcx : f.isConstexpr = false) (hm : f.isMain = false) :
    ((ConstexprFunctionASTVisitor.VisitFunctionDecl sm de f).1).suppressAll = false := by
  rw [visitFunctionDecl_eq]
  by_cases hck : funcChecksOk f <;> simp [hsm, hcx, hm, hck, DiagnosticsEngine.report]

/-- C5 witness: starting even from an engine whose suppression flag is on, a
probed function leaves suppression off. -/
theorem c5_suppression_restored_witness :
    ((ConstexprFunctionASTVisitor.VisitFunctionDecl smW deSuppressed c5Fn).1).suppressAll =
      false :=
  c5_suppression_restored smW deSuppressed c5Fn rfl rfl rfl

/-- C2: the Variable Eligibility Visitor leaves the diagnostics state
untouched on any function whose constexpr flag is true at the time of
descent; in particular a function that is constexpr after the function pass
(including those the pass newly marked) produces no variable diagnostics. -/
theorem c2_variable_pass_skips_constexpr :
    (∀ (sm : SourceManager) (de : DiagnosticsEngine) (f : FunctionDecl),
      f.isConstexpr = true →
      ConstexprVarDeclFunctionASTVisitor.VisitFunctionDecl sm de f = de) ∧
    (∀ (sm : SourceManager) (de de' : DiagnosticsEngine) (f : FunctionDecl),
      ((ConstexprFunctionASTVisitor.VisitFunctionDecl sm de f).2).isConstexpr = true →
      ConstexprVarDeclFunctionASTVisitor.VisitFunctionDecl sm de'
        ((ConstexprFunctionASTVisitor.VisitFunctionDecl sm de f).2) = de') := by
  have hskip : ∀ (sm : SourceManager) (de : DiagnosticsEngine) (f : FunctionDecl),
      f.isConstexpr = true →
      ConstexprVarDeclFunctionASTVisitor.VisitFunctionDecl sm de f = de := by
    intro sm de f h
    by_cases hsm : sm.isWrittenInMainFile f.sourceBegin <;>
      simp [ConstexprVarDeclFunctionASTVisitor.VisitFunctionDecl, hsm, h]
  exact ⟨hskip, fun sm de de' f h => hskip sm de' _ h⟩

/-- C2 witness: an already-constexpr function is skipped, and a function newly
marked by the function pass is skipped by the variable pass. -/
theorem c2_variable_pass_skips_constexpr_witness :
    ConstexprVarDeclFunctionASTVisitor.VisitFunctionDecl smW deStart c2Fn = deStart ∧
    ConstexprVarDeclFunctionASTVisitor.VisitFunctionDecl smW deStart
      ((ConstexprFunctionASTVisitor.VisitFunctionDecl smW deStart c2Fn2).2) = deStart :=
  ⟨c2_variable_pass_skips_constexpr.1 smW deStart c2Fn rfl,
   c2_variable_pass_skips_constexpr.2 smW deStart deStart c2Fn2 rfl⟩

/-- C8: a declaration statement declaring more than one declaration is
skipped entirely by the variable visitor: no suggestion for any variable it
declares. -/
theorem c8_multi_declarator_skipped (de : DiagnosticsEngine) (stmt : DeclStmt)
    (h : 1 < stmt.decls.length) :
    ConstexprVarDeclVisitor.VisitDeclStmt de stmt = de := by
  have hs : stmt.isSingleDecl = false := by
    simp only [DeclStmt.isSingleDecl, beq_eq_false_iff_ne, ne_eq]
    omega
  simp [ConstexprVarDeclVisitor.VisitDeclStmt, hs]

/-- C8 witness: a two-declarator statement whose variables would each
individually qualify produces no diagnostic. -/
theorem c8_multi_declarator_skipped_witness :
    ConstexprVarDeclVisitor.VisitDeclStmt deStart c8Stmt = deStart :=
  c8_multi_declarator_skipped deStart c8Stmt (by decide)

/-- C3 counterexample: a single-declaration local variable that satisfies all
five conditions the claim lists (not already constexpr, has an initializer,
integral-constant-expression pre-check passes, value constant-evaluates,
classified as a valid constant initializer) yet receives no "variable can be
constexpr" warning, because its initializer is value-dependent and the code
additionally skips value-dependent initializers. -/
theorem c3_counterexample :
    (c3Var.isConstexpr = false ∧ c3Var.init.isSome = true ∧ c3Var.checkInitIsICE = true ∧
      c3Var.evaluateValue = true ∧ c3Var.isInitICE = true) ∧
    ConstexprVarDeclVisitor.VisitDeclStmt deStart c3Stmt = deStart := by
  exact ⟨⟨rfl, rfl, rfl, rfl, rfl⟩, rfl⟩

/-- C3 amended: for a single-declaration statement introducing one local
variable, the "variable can be constexpr" warning with its fix-it at the
statement's start location is emitted if and only if the variable is not
already constexpr, has an initializer, the initializer is not
value-dependent, passes the integral-constant-expression pre-check, its value
constant-evaluates, and it is classified as a valid constant initializer;
otherwise the diagnostics state is unchanged (and the variable's constexpr
flag is never mutated: the visitor's state contains no variable flags). -/
theorem c3_variable_eligibility (de : DiagnosticsEngine) (stmt : DeclStmt) (var : VarDecl)
    (hsup : de.suppressAll = false)
    (hdecls : stmt.decls = [LocalDecl.varDeclKind var]) :
    (var.isConstexpr = false ∧ var.checkInitIsICE = true ∧ var.evaluateValue = true ∧
        var.isInitICE = true ∧ var.init = some { isValueDependent := false } →
      ConstexprVarDeclVisitor.VisitDeclStmt de stmt =
        { de with emitted := de.emitted ++ [variableCanBeConstexprDiag stmt.beginLoc] }) ∧
    (¬(var.isConstexpr = false ∧ var.checkInitIsICE = true ∧ var.evaluateValue = true ∧
        var.isInitICE = true ∧ var.init = some { isValueDependent := false }) →
      ConstexprVarDeclVisitor.VisitDeclStmt de stmt = de) := by
  have hsd : stmt.isSingleDecl = true := by simp [DeclStmt.isSingleDecl, hdecls]
  constructor
  · rintro ⟨h1, h2, h3, h4, h5⟩
    simp [ConstexprVarDeclVisitor.VisitDeclStmt, hsd, hdecls, LocalDecl.dynCastVarDecl,
      h1, h2, h3, h4, h5, DiagnosticsEngine.report, hsup]
  · intro hneg
    by_cases h1 : var.isConstexpr = true
    · simp [ConstexprVarDeclVisitor.VisitDeclStmt, hsd, hdecls, LocalDecl.dynCastVarDecl, h1]
    · have h1f : var.isConstexpr = false := by simpa using h1
      rcases hinit : var.init with _ | ⟨b⟩
      · simp [ConstexprVarDeclVisitor.VisitDeclStmt, hsd, hdecls, LocalDecl.dynCastVarDecl,
          h1f, hinit]
      · obtain ⟨bval⟩ := b
        by_cases h2 : var.checkInitIsICE = true
        · cases bval with
          | true =>
            simp [ConstexprVarDeclVisitor.VisitDeclStmt, hsd, hdecls,
              LocalDecl.dynCastVarDecl, h1f, hinit, h2]
          | false =>
            by_cases h3 : var.evaluateValue = true
            · by_cases h4 : var.isInitICE = true
              · exact absurd ⟨h1f, h2, h3, h4, by rw [hinit]⟩ hneg
              · have h4f : var.isInitICE = false := by simpa using h4
                simp [ConstexprVarDeclVisitor.VisitDeclStmt, hsd, hdecls,
                  LocalDecl.dynCastVarDecl, h1f, hinit, h2, h3, h4f]
            · have h3f : var.evaluateValue = false := by simpa using h3
              simp [ConstexprVarDeclVisitor.VisitDeclStmt, hsd, hdecls,
                LocalDecl.dynCastVarDecl, h1f, hinit, h2, h3f]
        · have h2f : var.checkInitIsICE = false := by simpa using h2
          simp [ConstexprVarDeclVisitor.VisitDeclStmt, hsd, hdecls,
            LocalDecl.dynCastVarDecl, h1f, hinit, h2f]

/-- C3 witness: a concrete eligible local variable gets exactly the warning
with its fix-it at the statement's start location. -/
theorem c3_variable_eligibility_witness :
    ConstexprVarDeclVisitor.VisitDeclStmt deStart c3GoodStmt =
      { deStart with
        emitted := deStart.emitted ++ [variableCanBeConstexprDiag c3GoodStmt.beginLoc] } :=
  (c3_variable_eligibility deStart c3GoodStmt c3GoodVar rfl rfl).1 ⟨rfl, rfl, rfl, rfl, rfl⟩

/-- C4: a function whose body contains a definition of a local variable of
static or thread storage duration fails eligibility as a whole: the
statement-body check returns false on that statement, the checker
short-circuits at that variable (any two suffixes after it give the same
result), and the function visitor neither sets the constexpr flag nor emits
anything. -/
theorem c4_static_local_fails_function (f : FunctionDecl) (ds : DeclStmt) (v : VarDecl)
    (hds : ds ∈ f.body) (hv : LocalDecl.varDeclKind v ∈ ds.decls)
    (hdef : v.isThisDeclarationADefinition = true) (hs : v.isStaticLocal = true) :
    (∀ (de : DiagnosticsEngine) (isCtor cxx14 : Bool) (cl : Option SourceLocation),
      (CheckConstexprDeclStmt de isCtor cxx14 ds cl).2.2 = false) ∧
    (∀ (isCtor cxx14 : Bool) (b : SourceLocation) (pre s1 s2 : List LocalDecl)
        (de : DiagnosticsEngine) (cl : Option SourceLocation),
      CheckConstexprDeclStmtAux isCtor cxx14 b (pre ++ LocalDecl.varDeclKind v :: s1) de cl =
        CheckConstexprDeclStmtAux isCtor cxx14 b (pre ++ LocalDecl.varDeclKind v :: s2) de cl) ∧
    (∀ (sm : SourceManager) (de : DiagnosticsEngine),
      sm.isWrittenInMainFile f.sourceBegin = true → f.isConstexpr = false →
      f.isMain = false →
      ConstexprFunctionASTVisitor.VisitFunctionDecl sm de f =
        ({ de with suppressAll := false }, f)) := by
  have hillegal : (LocalDecl.varDeclKind v).legalInConstexprBody = false :=
    staticLocal_illegal v hdef hs
  have hdsf : ds.legalInConstexprBody = false := by
    apply List.all_eq_false.mpr
    exact ⟨LocalDecl.varDeclKind v, hv, by simp [hillegal]⟩
  refine ⟨?_, ?_, ?_⟩
  · intro de isCtor cxx14 cl
    rw [checkConstexprDeclStmt_verdict]
    exact hdsf
  · intro isCtor cxx14 b pre s1 s2 de cl
    exact checkConstexprDeclStmtAux_shortCircuit isCtor cxx14 b pre _ hillegal s1 s2 de cl
  · intro sm de hsm hcx hm
    have hbody : Sema.CheckConstexprFunctionBody f = false := by
      have : f.body.all DeclStmt.legalInConstexprBody = false :=
        List.all_eq_false.mpr ⟨ds, hds, by simp [hdsf]⟩
      simp [Sema.CheckConstexprFunctionBody, this]
    have hck : funcChecksOk f = false := by simp [funcChecksOk, hbody]
    rw [visitFunctionDecl_eq]
    simp [hsm, hcx, hm, hck]

/-- C4 witness: a concrete function with a static local variable definition:
the statement-body check returns false and the visitor is inert on it. -/
theorem c4_static_local_fails_function_witness :
    (CheckConstexprDeclStmt deStart false false c4Stmt none).2.2 = false ∧
    ConstexprFunctionASTVisitor.VisitFunctionDecl smW deStart c4Fn =
      ({ deStart with suppressAll := false }, c4Fn) := by
  have h := c4_static_local_fails_function c4Fn c4Stmt c4Var
    (by simp [c4Fn]) (by simp [c4Stmt]) rfl rfl
  exact ⟨h.1 deStart false false none, h.2.2 smW deStart rfl rfl rfl⟩

/-- C10: the Variable Eligibility Visitor does not exclude the entry point:
on a concrete translation unit whose only function is `main` (in the primary
file, hence never marked constexpr by the function pass), a qualifying local
variable of `main` receives exactly one "variable can be constexpr" warning
with its fix-it, and the function pass emits nothing for `main`. -/
theorem c10_entry_point_locals_diagnosed :
    (ConstexprEverythingASTConsumer.HandleTranslationUnit smW deStart [mainFn]).1.emitted =
      [variableCanBeConstexprDiag mainFnStmt.beginLoc] := by
  rfl

/-- The parameter-check loop fails at the first non-dependent non-literal
parameter, emitting its 1-based index (relative to the loop's starting
`ArgIndex`) and its source range. -/
theorem checkConstexprParameterTypesAux_fail_at (isCtor : Bool) (pre : List ParmVarDecl)
    (p : ParmVarDecl) (rest : List ParmVarDecl) (n : Nat) (de : DiagnosticsEngine)
    (hsup : de.suppressAll = false)
    (hpre : ∀ q ∈ pre, q.type.isDependentType = true ∨ q.type.isLiteralType = true)
    (hdep : p.type.isDependentType = false) (hlit : p.type.isLiteralType = false) :
    CheckConstexprParameterTypesAux isCtor (pre ++ p :: rest) n de =
      ({ de with emitted := de.emitted ++
          [{ loc := p.location, id := DiagId.err_constexpr_non_literal_param,
             args := [n + pre.length + 1, isCtor.toNat], range := some p.sourceRange,
             fixit := none }] }, false) := by
  revert hpre
  induction pre generalizing n with
  | nil =>
    intro _
    simp [CheckConstexprParameterTypesAux, Sema.RequireLiteralType, hdep, hlit,
      DiagnosticsEngine.report, hsup]
  | cons q pre ih =>
    intro hpre
    have hq := hpre q (List.mem_cons_self q pre)
    have hrec := ih (n + 1) (fun r hr => hpre r (List.mem_cons_of_mem q hr))
    have hstep : CheckConstexprParameterTypesAux isCtor ((q :: pre) ++ p :: rest) n de =
        CheckConstexprParameterTypesAux isCtor (pre ++ p :: rest) (n + 1) de := by
      by_cases hqd : q.type.isDependentType = true
      · simp [CheckConstexprParameterTypesAux, hqd]
      · have hql : q.type.isLiteralType = true := by
          rcases hq with h | h
          · exact absurd h hqd
          · exact h
        simp [CheckConstexprParameterTypesAux, Sema.RequireLiteralType, hqd, hql]
    have harith : n + 1 + pre.length + 1 = n + (pre.length + 1) + 1 := by omega
    rw [harith] at hrec
    rw [hstep, hrec]
    simp [List.length_cons]

/-- C6: the Parameter Literalness Checker returns false at the first
non-dependent parameter type that is not a literal type, reporting the
offending parameter's 1-based index and source range; it returns true when
the end of the parameter list is reached; and a dependent parameter type is
never checked and never causes failure, at whatever position it occupies. -/
theorem c6_parameter_literalness (de : DiagnosticsEngine) (f : FunctionDecl)
    (hsup : de.suppressAll = false) :
    (∀ (pre : List ParmVarDecl) (p : ParmVarDecl) (rest : List ParmVarDecl),
      f.params = pre ++ p :: rest →
      (∀ q ∈ pre, q.type.isDependentType = true ∨ q.type.isLiteralType = true) →
      p.type.isDependentType = false → p.type.isLiteralType = false →
      CheckConstexprParameterTypes de f =
        ({ de with emitted := de.emitted ++
            [{ loc := p.location, id := DiagId.err_constexpr_non_literal_param,
               args := [pre.length + 1, f.isCtor.toNat], range := some p.sourceRange,
               fixit := none }] }, false)) ∧
    ((∀ q ∈ f.params, q.type.isDependentType = true ∨ q.type.isLiteralType = true) →
      CheckConstexprParameterTypes de f = (de, true)) ∧
    (∀ (p : ParmVarDecl) (rest : List ParmVarDecl) (n : Nat),
      p.type.isDependentType = true →
      CheckConstexprParameterTypesAux f.isCtor (p :: rest) n de =
        CheckConstexprParameterTypesAux f.isCtor rest (n + 1) de) := by
  refine ⟨?_, ?_, ?_⟩
  · intro pre p rest hparams hpre hdep hlit
    rw [CheckConstexprParameterTypes, hparams]
    have h := checkConstexprParameterTypesAux_fail_at f.isCtor pre p rest 0 de hsup
      hpre hdep hlit
    simpa using h
  · intro hall
    rw [CheckConstexprParameterTypes]
    refine checkConstexprParameterTypesAux_all_pass f.isCtor f.params 0 de ?_
    rw [List.all_eq_true]
    intro q hq
    rcases hall q hq with h | h <;> simp [h]
  · intro p rest n hdep
    simp [CheckConstexprParameterTypesAux, hdep]

/-- C6 witness: with a dependent first parameter and a non-literal second
parameter, the check fails reporting index 2 and the second parameter's
range, and a dependent head is skipped. -/
theorem c6_parameter_literalness_witness :
    CheckConstexprParameterTypes deStart c6Fn =
      ({ deStart with emitted := deStart.emitted ++
          [{ loc := 63, id := DiagId.err_constexpr_non_literal_param,
             args := [2, 0], range := some 64, fixit := none }] }, false) :=
  (c6_parameter_literalness deStart c6Fn rfl).1
    [{ location := 61, sourceRange := 62, type := dependentType }]
    { location := 63, sourceRange := 64, type := nonLiteralType } []
    rfl (by decide) rfl rfl

/-- C7: running the Function Eligibility Visitor a second time over the
translation unit it has already mutated produces zero additional diagnostics
and zero additional mutations. -/
theorem c7_function_pass_idempotent (sm : SourceManager) (de : DiagnosticsEngine)
    (tu : List FunctionDecl) :
    (ConstexprFunctionASTVisitor.TraverseDecl sm
        ((ConstexprFunctionASTVisitor.TraverseDecl sm tu de).2)
        ((ConstexprFunctionASTVisitor.TraverseDecl sm tu de).1)).1.emitted =
      ((ConstexprFunctionASTVisitor.TraverseDecl sm tu de).1).emitted ∧
    (ConstexprFunctionASTVisitor.TraverseDecl sm
        ((ConstexprFunctionASTVisitor.TraverseDecl sm tu de).2)
        ((ConstexprFunctionASTVisitor.TraverseDecl sm tu de).1)).2 =
      (ConstexprFunctionASTVisitor.TraverseDecl sm tu de).2 := by
  rw [traverseDecl_snd sm tu de]
  have hstable : ∀ f' ∈ tu.map (visitedFunction sm), ∀ de' : DiagnosticsEngine,
      (ConstexprFunctionASTVisitor.VisitFunctionDecl sm de' f').1.emitted = de'.emitted ∧
        (ConstexprFunctionASTVisitor.VisitFunctionDecl sm de' f').2 = f' := by
    intro f' hf' de'
    rcases List.mem_map.mp hf' with ⟨g, hg, rfl⟩
    exact visitedFunction_stable sm g de'
  exact traverseDecl_stable sm (tu.map (visitedFunction sm)) hstable
    (ConstexprFunctionASTVisitor.TraverseDecl sm tu de).1

/-- The variant function visitor coincides with the source one. -/
theorem variantVisitFunctionDecl_eq (sm : SourceManager) (de : DiagnosticsEngine)
    (f : FunctionDecl) :
    VariantVisitFunctionDecl sm de f =
      ConstexprFunctionASTVisitor.VisitFunctionDecl sm de f := rfl

/-- The variant function pass coincides with the source one. -/
theorem variantFunctionTraverseDecl_eq (sm : SourceManager) (tu : List FunctionDecl)
    (de : DiagnosticsEngine) :
    VariantFunctionTraverseDecl sm tu de =
      ConstexprFunctionASTVisitor.TraverseDecl sm tu de := by
  induction tu generalizing de with
  | nil => rfl
  | cons f fs ih =>
    simp only [VariantFunctionTraverseDecl, ConstexprFunctionASTVisitor.TraverseDecl,
      variantVisitFunctionDecl_eq]
    rcases hv : ConstexprFunctionASTVisitor.VisitFunctionDecl sm de f with ⟨de1, f1⟩
    rw [ih de1]

/-- The variant variable visitor coincides with the source one. -/
theorem variantVarDeclVisitFunctionDecl_eq (sm : SourceManager) (de : DiagnosticsEngine)
    (f : FunctionDecl) :
    VariantVarDeclVisitFunctionDecl sm de f =
      ConstexprVarDeclFunctionASTVisitor.VisitFunctionDecl sm de f := rfl

/-- The variant variable pass coincides with the source one. -/
theorem variantVarDeclTraverseDecl_eq (sm : SourceManager) (tu : List FunctionDecl)
    (de : DiagnosticsEngine) :
    VariantVarDeclTraverseDecl sm tu de =
      ConstexprVarDeclFunctionASTVisitor.TraverseDecl sm tu de := by
  induction tu generalizing de with
  | nil => rfl
  | cons f fs ih =>
    simp only [VariantVarDeclTraverseDecl, ConstexprVarDeclFunctionASTVisitor.TraverseDecl,
      variantVarDeclVisitFunctionDecl_eq]
    exact ih _

/-- C9: the repository's `CheckConstexprDeclStmt` is dead code: the whole run
is equal to the variant program from which it is removed, and one function
visit's diagnostics output and resulting constexpr flag are determined solely
by the visitor's preconditions and the results of the three semantic query
calls (function-declaration rules, function-body rules, parameter
literalness) — two functions agreeing on those agree on the visit's
effects whatever else (in particular their bodies as seen by
`CheckConstexprDeclStmt`) may differ. -/
theorem c9_checker_never_invoked :
    (∀ (sm : SourceManager) (de : DiagnosticsEngine) (tu : List FunctionDecl),
      ConstexprEverythingASTConsumer.HandleTranslationUnit sm de tu =
        VariantHandleTranslationUnit sm de tu) ∧
    (∀ (sm : SourceManager) (de : DiagnosticsEngine) (f g : FunctionDecl),
      f.sourceBegin = g.sourceBegin → f.isConstexpr = g.isConstexpr → f.isMain = g.isMain →
      Sema.CheckConstexprFunctionDecl f = Sema.CheckConstexprFunctionDecl g →
      Sema.CheckConstexprFunctionBody f = Sema.CheckConstexprFunctionBody g →
      checkConstexprParameterTypesPure f = checkConstexprParameterTypesPure g →
      (ConstexprFunctionASTVisitor.VisitFunctionDecl sm de f).1 =
          (ConstexprFunctionASTVisitor.VisitFunctionDecl sm de g).1 ∧
        (ConstexprFunctionASTVisitor.VisitFunctionDecl sm de f).2.isConstexpr =
          (ConstexprFunctionASTVisitor.VisitFunctionDecl sm de g).2.isConstexpr) := by
  constructor
  · intro sm de tu
    rw [ConstexprEverythingASTConsumer.HandleTranslationUnit, VariantHandleTranslationUnit,
      variantFunctionTraverseDecl_eq]
    rcases ht : ConstexprFunctionASTVisitor.TraverseDecl sm tu de with ⟨de1, tu1⟩
    simp only [variantVarDeclTraverseDecl_eq]
  · intro sm de f g h1 h2 h3 h4 h5 h6
    have hck : funcChecksOk f = funcChecksOk g := by
      simp [funcChecksOk, h4, h5, h6]
    rw [visitFunctionDecl_eq, visitFunctionDecl_eq, h1, h2, h3, hck]
    by_cases hskip : !(sm.isWrittenInMainFile g.sourceBegin) || g.isConstexpr || g.isMain
    · simp [hskip, h2]
    · by_cases hok : funcChecksOk g
      · simp [hskip, hok]
      · simp [hskip, hok, h2]

/-- C9 witness: two concrete functions with different bodies but identical
query verdicts get identical visit effects, and a concrete run equals the
variant program's run. -/
theorem c9_checker_never_invoked_witness :
    ((ConstexprFunctionASTVisitor.VisitFunctionDecl smW deStart c9f).1 =
        (ConstexprFunctionASTVisitor.VisitFunctionDecl smW deStart c9g).1 ∧
      (ConstexprFunctionASTVisitor.VisitFunctionDecl smW deStart c9f).2.isConstexpr =
        (ConstexprFunctionASTVisitor.VisitFunctionDecl smW deStart c9g).2.isConstexpr) ∧
    ConstexprEverythingASTConsumer.HandleTranslationUnit smW deStart [c9f, mainFn] =
      VariantHandleTranslationUnit smW deStart [c9f, mainFn] :=
  ⟨c9_checker_never_invoked.2 smW deStart c9f c9g rfl rfl rfl rfl rfl rfl,
   c9_checker_never_invoked.1 smW deStart [c9f, mainFn]⟩
